import Mathlib

/-!
Verification development for the ses-bounces-handler repository.

The repository contains several iterations of the same Express server that
ingests Amazon SNS bounce notifications, appends them to a CSV store, and
runs a nightly report/cleanup cron job.  We shallowly embed the decoding,
record-building, store-append, retry and retention logic of the variants the
claims cite:

* `ses-bounces-handler.js` (the original, "root" variant),
* `src/unnamed/part_003` (the multi-strategy JSON decoder variant),
* `src/unnamed/part_005` (the enhanced variant with nine-column records,
  lock-file appends, signature checks and record-based cleanup),
* `src/unnamed/part_000` (MongoDB variant; its retry loop is identical to
  part_005's and is represented by the same embedding).

JavaScript runtime values coming out of `JSON.parse`/`body-parser` are
modelled by the inductive `Json`; `undefined` is modelled by `Option Json`
with `none`.  `JSON.parse` itself is external library code; it is modelled
by an executable recursive-descent parser over the JSON fragment the
payloads use (numeric literals restricted to integers, no unicode escapes).
`new Date(string)` is modelled by `jsDateParse`, which accepts the ISO-8601
shapes the system writes ("YYYY-MM-DD", with optional "THH:MM:SS[.mmm]Z")
and yields milliseconds on a fixed proleptic-Gregorian timeline; only the
order of timestamps matters to any claim, so the origin is irrelevant.
-/

namespace SES

/-- Model of a JavaScript/JSON runtime value.  `undefined` is represented
externally as `none : Option Json`. -/
inductive Json where
  | null : Json
  | bool : Bool → Json
  | num : Int → Json
  | str : String → Json
  | arr : List Json → Json
  | obj : List (String × Json) → Json

/-- JSON whitespace. -/
def jsonWs (c : Char) : Bool :=
  c = ' ' || c = '\n' || c = '\t' || c = '\r'

/-- Drop leading JSON whitespace. -/
def skipWs : List Char → List Char
  | [] => []
  | c :: cs => if jsonWs c then skipWs cs else c :: cs

/-- The `\x7b` character (opening curly brace). -/
def braceL : Char := Char.ofNat 123

/-- The `\x7d` character (closing curly brace). -/
def braceR : Char := Char.ofNat 125

/-- Decode a single-character JSON string escape. -/
def escChar (c : Char) : Option Char :=
  if c = '"' then some '"'
  else if c = '\\' then some '\\'
  else if c = '/' then some '/'
  else if c = 'n' then some '\n'
  else if c = 't' then some '\t'
  else if c = 'r' then some '\r'
  else if c = 'b' then some (Char.ofNat 8)
  else if c = 'f' then some (Char.ofNat 12)
  else none

/-- Parse the body of a JSON string after the opening quote, returning the
decoded characters and the input following the closing quote. -/
def parseStrBody : List Char → Option (List Char × List Char)
  | [] => none
  | c :: cs =>
    if c = '"' then some ([], cs)
    else if c = '\\' then
      match cs with
      | [] => none
      | e :: cs' =>
        match escChar e with
        | none => none
        | some d =>
          match parseStrBody cs' with
          | none => none
          | some (body, rest) => some (d :: body, rest)
    else
      match parseStrBody cs with
      | none => none
      | some (body, rest) => some (c :: body, rest)

/-- Split a maximal run of ASCII digits off the front of the input. -/
def takeDigits : List Char → List Char × List Char
  | [] => ([], [])
  | c :: cs =>
    if c.isDigit then
      let p := takeDigits cs
      (c :: p.1, p.2)
    else ([], c :: cs)

/-- Numeric value of a digit run. -/
def digitsVal (ds : List Char) : Nat :=
  ds.foldl (fun a c => a * 10 + (c.toNat - 48)) 0

mutual

/-- Fueled recursive-descent parser for one JSON value. -/
def parseVal : Nat → List Char → Option (Json × List Char)
  | 0, _ => none
  | Nat.succ fuel, cs =>
    match skipWs cs with
    | [] => none
    | c :: rest =>
      if c = '"' then
        match parseStrBody rest with
        | some (body, rest') => some (.str (String.mk body), rest')
        | none => none
      else if c = braceL then
        match skipWs rest with
        | [] => none
        | c2 :: r2 =>
          if c2 = braceR then some (.obj [], r2)
          else
            match parseObjFields fuel (c2 :: r2) with
            | some (fs, r) => some (.obj fs, r)
            | none => none
      else if c = '[' then
        match skipWs rest with
        | [] => none
        | c2 :: r2 =>
          if c2 = ']' then some (.arr [], r2)
          else
            match parseArrElems fuel (c2 :: r2) with
            | some (vs, r) => some (.arr vs, r)
            | none => none
      else if c = 't' then
        match rest with
        | 'r' :: 'u' :: 'e' :: r => some (.bool true, r)
        | _ => none
      else if c = 'f' then
        match rest with
        | 'a' :: 'l' :: 's' :: 'e' :: r => some (.bool false, r)
        | _ => none
      else if c = 'n' then
        match rest with
        | 'u' :: 'l' :: 'l' :: r => some (.null, r)
        | _ => none
      else if c = '-' then
        match takeDigits rest with
        | ([], _) => none
        | (d :: ds, r) =>
          if d = '0' && ds ≠ [] then none
          else some (.num (-(Int.ofNat (digitsVal (d :: ds)))), r)
      else if c.isDigit then
        match takeDigits (c :: rest) with
        | ([], _) => none
        | (d :: ds, r) =>
          if d = '0' && ds ≠ [] then none
          else some (.num (Int.ofNat (digitsVal (d :: ds))), r)
      else none

/-- Parse the comma-separated elements of a JSON array (first element
pending), including the closing bracket. -/
def parseArrElems : Nat → List Char → Option (List Json × List Char)
  | 0, _ => none
  | Nat.succ fuel, cs =>
    match parseVal fuel cs with
    | none => none
    | some (v, rest) =>
      match skipWs rest with
      | ',' :: r =>
        match parseArrElems fuel r with
        | some (vs, r') => some (v :: vs, r')
        | none => none
      | ']' :: r => some ([v], r)
      | _ => none

/-- Parse the comma-separated fields of a JSON object (first field pending),
including the closing brace. -/
def parseObjFields : Nat → List Char → Option (List (String × Json) × List Char)
  | 0, _ => none
  | Nat.succ fuel, cs =>
    match cs with
    | [] => none
    | c :: r =>
      if c = '"' then
        match parseStrBody r with
        | none => none
        | some (key, r1) =>
          match skipWs r1 with
          | ':' :: r2 =>
            match parseVal fuel r2 with
            | none => none
            | some (v, r3) =>
              match skipWs r3 with
              | [] => none
              | c2 :: r4 =>
                if c2 = ',' then
                  match parseObjFields fuel (skipWs r4) with
                  | some (fs, r5) => some ((String.mk key, v) :: fs, r5)
                  | none => none
                else if c2 = braceR then some ([(String.mk key, v)], r4)
                else none
          | _ => none
      else none

end

/-- Model of `JSON.parse` applied to a string: parse one value and require
only whitespace to remain. -/
def jsonParse (s : String) : Option Json :=
  match parseVal (s.length + 1) s.data with
  | some (v, rest) => if skipWs rest = [] then some v else none
  | none => none

mutual

/-- Model of JavaScript `String(v)` coercion. -/
def jsToString : Json → String
  | .null => "null"
  | .bool true => "true"
  | .bool false => "false"
  | .num n => toString n
  | .str s => s
  | .arr xs => String.intercalate "," (jsToStringList xs)
  | .obj _ => "[object Object]"

/-- `String(v)` elementwise for array joining. -/
def jsToStringList : List Json → List String
  | [] => []
  | x :: xs => jsToString x :: jsToStringList xs

end

/-- Model of `String(v)` where `v` may be `undefined`. -/
def jsToStringU : Option Json → String
  | none => "undefined"
  | some v => jsToString v

/-- Model of `JSON.parse(v)` on an arbitrary JS value (possibly
`undefined`): a string argument is parsed directly, any other argument is
first coerced to a string. -/
def jsonParseArg : Option Json → Option Json
  | some (.str s) => jsonParse s
  | v => jsonParse (jsToStringU v)

/-- JavaScript truthiness of a value. -/
def jsFalsy : Json → Bool
  | .null => true
  | .bool b => !b
  | .num n => n = 0
  | .str s => s = ""
  | _ => false

/-- Truthiness test where `none` models `undefined` (falsy). -/
def jsFalsyO : Option Json → Bool
  | none => true
  | some v => jsFalsy v

/-- Property access `v.k` for a value known not to be `null`/`undefined`:
objects look the key up, anything else yields `undefined`. -/
def jsMember (v : Json) (k : String) : Option Json :=
  match v with
  | .obj fs => fs.lookup k
  | _ => none

/-- Structural split of a character list at commas (JS `split(',')`):
the empty string yields one empty field, a trailing comma a trailing
empty field. -/
def splitCommaAux : List Char → List Char → List String
  | [], acc => [String.mk acc.reverse]
  | c :: cs, acc =>
    if c = ',' then String.mk acc.reverse :: splitCommaAux cs []
    else splitCommaAux cs (c :: acc)

/-- JS `line.split(',')`. -/
def jsSplitComma (s : String) : List String :=
  splitCommaAux s.data []

/-- JS `s.replace(per-character global regex, '')` for one character: drop
every occurrence. -/
def stripChar (c : Char) (s : String) : String :=
  String.mk (s.data.filter (fun x => x ≠ c))

/-- Left-to-right non-overlapping replacement of backslash-quote pairs by
quotes (JS `s.replace(backslash-quote global regex, quote)`). -/
def unescapeQuotes : List Char → List Char
  | '\\' :: '"' :: rest => '"' :: unescapeQuotes rest
  | c :: rest => c :: unescapeQuotes rest
  | [] => []

/-- Prefix test over characters (kernel-reducible `startsWith`). -/
def strStartsWith (s pre : String) : Bool :=
  pre.data.isPrefixOf s.data

/-- Suffix test over characters (kernel-reducible `endsWith`). -/
def strEndsWith (s suf : String) : Bool :=
  suf.data.isSuffixOf s.data

/-- Days in a month of the proleptic Gregorian calendar. -/
def monthLen (leap : Bool) (m : Nat) : Nat :=
  if m = 1 then 31 else if m = 2 then (if leap then 29 else 28)
  else if m = 3 then 31 else if m = 4 then 30 else if m = 5 then 31
  else if m = 6 then 30 else if m = 7 then 31 else if m = 8 then 31
  else if m = 9 then 30 else if m = 10 then 31 else if m = 11 then 30
  else if m = 12 then 31 else 0

/-- Gregorian leap-year test. -/
def isLeap (y : Nat) : Bool :=
  (y % 4 = 0 && y % 100 ≠ 0) || y % 400 = 0

/-- Days in the whole years before year `y` (counting from year 1). -/
def daysBeforeYear (y : Nat) : Nat :=
  365 * (y - 1) + (y - 1) / 4 - (y - 1) / 100 + (y - 1) / 400

/-- Days in the months of year `y` strictly before month `m`. -/
def daysBeforeMonth (y : Nat) (m : Nat) : Nat :=
  (List.range (m - 1)).foldl (fun a i => a + monthLen (isLeap y) (i + 1)) 0

/-- Digit-run check for fixed-width numeric fields. -/
def allDigits (cs : List Char) : Bool :=
  cs.all Char.isDigit

/-- Parse the clock part `HH:MM:SS` with optional `.mmm`, expecting a final
`Z`.  Returns milliseconds within the day. -/
def parseClock (cs : List Char) : Option Nat :=
  match cs with
  | h1 :: h2 :: ':' :: m1 :: m2 :: ':' :: s1 :: s2 :: rest =>
    if allDigits [h1, h2, m1, m2, s1, s2] then
      let h := digitsVal [h1, h2]
      let mi := digitsVal [m1, m2]
      let se := digitsVal [s1, s2]
      if h < 24 && mi < 60 && se < 60 then
        let base := (h * 3600 + mi * 60 + se) * 1000
        match rest with
        | ['Z'] => some base
        | '.' :: a :: b :: c :: ['Z'] =>
          if allDigits [a, b, c] then some (base + digitsVal [a, b, c]) else none
        | _ => none
      else none
    else none
  | _ => none

/-- Model of `new Date(s).getTime()` for the ISO-8601 strings this system
produces and consumes: `YYYY-MM-DD` optionally followed by
`THH:MM:SS[.mmm]Z`.  Anything else is an invalid date (`none`), matching
`new Date(...)` yielding `Invalid Date` on the strings the store holds
(header titles, empty cells, free text).  The result is milliseconds on a
fixed timeline; claims only compare such values. -/
def jsDateParse (s : String) : Option Int :=
  match s.data with
  | y1 :: y2 :: y3 :: y4 :: '-' :: m1 :: m2 :: '-' :: d1 :: d2 :: rest =>
    if allDigits [y1, y2, y3, y4, m1, m2, d1, d2] then
      let y := digitsVal [y1, y2, y3, y4]
      let m := digitsVal [m1, m2]
      let d := digitsVal [d1, d2]
      if 1 ≤ m && m ≤ 12 && 1 ≤ d && d ≤ monthLen (isLeap y) m then
        let dayMs := (daysBeforeYear y + daysBeforeMonth y m + (d - 1)) * 86400000
        match rest with
        | [] => some (Int.ofNat dayMs)
        | 'T' :: clock =>
          match parseClock clock with
          | some ms => some (Int.ofNat (dayMs + ms))
          | none => none
        | _ => none
      else none
    else none
  | _ => none

/-! ## part_005: signature check, message extraction and record processing -/

/-- Hostname of a URL string, modelling `new URL(s).hostname` on the
http/https URLs the envelopes carry; `none` models the constructor
throwing. -/
def urlHostname (s : String) : Option String :=
  if strStartsWith s "https://" then
    some (String.mk ((s.data.drop 8).takeWhile
      (fun c => c ≠ '/' && c ≠ ':' && c ≠ '?' && c ≠ '#')))
  else if strStartsWith s "http://" then
    some (String.mk ((s.data.drop 7).takeWhile
      (fun c => c ≠ '/' && c ≠ ':' && c ≠ '?' && c ≠ '#')))
  else none

/-- part_005 `verifySignature`: requires `SigningCertURL`, `Signature` and
`SignatureVersion` to be present (truthy) and the certificate URL's
hostname to end in `.amazonaws.com`; beyond that it trusts the message in
both development and production modes (the cryptographic check is a
documented gap in the source). -/
def verifySignature005 (msg : Json) : Bool :=
  if jsFalsyO (jsMember msg "SigningCertURL") then false
  else if jsFalsyO (jsMember msg "Signature") then false
  else if jsFalsyO (jsMember msg "SignatureVersion") then false
  else
    match urlHostname (jsToStringU (jsMember msg "SigningCertURL")) with
    | none => false
    | some host => strEndsWith host ".amazonaws.com"

/-- JavaScript `typeof v === 'object'`: true for objects, arrays and
`null`. -/
def typeofObject : Json → Bool
  | .obj _ => true
  | .arr _ => true
  | .null => true
  | _ => false

/-- Errors thrown inside the part_005 request path. -/
inductive HErr where
  | badSignature
  | invalidMsgFormat
  | nullAccess
  | invalidBounceStructure
  | typeFault
  | storeFault
deriving DecidableEq

/-- part_005 `processSNSMessage` inner-`Message` handling: a value of
`typeof 'object'` is used as-is, a string (or other primitive) is given to
`JSON.parse`, and a parse failure throws `Invalid Message format`. -/
def extractMsg005 (m : Option Json) : Except HErr Json :=
  match m with
  | some v =>
    if typeofObject v then .ok v
    else
      match jsonParseArg (some v) with
      | some w => .ok w
      | none => .error .invalidMsgFormat
  | none =>
    match jsonParseArg none with
    | some w => .ok w
    | none => .error .invalidMsgFormat

/-- Reading `.notificationType` off the decoded content: throws on `null`,
yields `undefined` on non-objects. -/
def notifTypeOf : Json → Except HErr (Option Json)
  | .null => .error .nullAccess
  | .obj fs => .ok (fs.lookup "notificationType")
  | _ => .ok none

/-- Strict-equality test `x === 'Bounce'`. -/
def isBounceTag : Option Json → Bool
  | some (.str s) => s = "Bounce"
  | _ => false

/-- part_005 `processSNSMessage`: verify the signature, extract the inner
content, and return `none` for non-Bounce notifications. -/
def processSNSMessage005 (body : Json) : Except HErr (Option Json) :=
  if verifySignature005 body = false then .error .badSignature
  else
    match extractMsg005 (jsMember body "Message") with
    | .error e => .error e
    | .ok content =>
      match notifTypeOf content with
      | .error e => .error e
      | .ok nt => if isBounceTag nt then .ok (some content) else .ok none

/-- Rendering of one record field by `csv-writer`: `null`/`undefined`
become the empty cell, anything else is string-coerced. -/
def csvCell : Json → String
  | .null => ""
  | v => jsToString v

/-- Cell rendering where the field may be `undefined`. -/
def csvCellU : Option Json → String
  | none => ""
  | some v => csvCell v

/-- JavaScript `v || d` with a string default: the default is taken when
`v` is absent or falsy. -/
def jsOrStr (v : Option Json) (d : String) : Json :=
  match v with
  | some x => if jsFalsy x then .str d else x
  | none => .str d

/-- One stored row of the part_005 nine-column store. -/
structure BounceRecord where
  email : String
  timestamp : String
  sourceEmail : String
  sourceIp : String
  bounceType : String
  bounceSubType : String
  diagnosticCode : String
  reportingMTA : String
  feedbackId : String
deriving DecidableEq

/-- The record the part_005 `/sns` handler builds for one recipient:
core fields are taken verbatim (rendering `undefined` as an empty cell),
the five optional metadata fields fall back to `Unknown`/`Not provided`. -/
def mkBounceRecord (bounce mail recipient : Json) : BounceRecord where
  email := csvCellU (jsMember recipient "emailAddress")
  timestamp := csvCellU (jsMember bounce "timestamp")
  sourceEmail := csvCellU (jsMember mail "source")
  sourceIp := csvCellU (jsMember mail "sourceIp")
  bounceType := csvCell (jsOrStr (jsMember bounce "bounceType") "Unknown")
  bounceSubType := csvCell (jsOrStr (jsMember bounce "bounceSubType") "Unknown")
  diagnosticCode := csvCell (jsOrStr (jsMember recipient "diagnosticCode") "Not provided")
  reportingMTA := csvCell (jsOrStr (jsMember bounce "reportingMTA") "Not provided")
  feedbackId := csvCell (jsOrStr (jsMember bounce "feedbackId") "Not provided")

/-- The cells of a record in store order. -/
def toCells (r : BounceRecord) : List String :=
  [r.email, r.timestamp, r.sourceEmail, r.sourceIp, r.bounceType,
   r.bounceSubType, r.diagnosticCode, r.reportingMTA, r.feedbackId]

/-- Test for the JS `null` value. -/
def isNullJ : Json → Bool
  | .null => true
  | _ => false

/-- `bounce.bouncedRecipients.map(recipient => ...)`; property access on a
`null` element throws. -/
def mkRecords (bounce mail : Json) : List Json → Except HErr (List BounceRecord)
  | [] => .ok []
  | r :: rs =>
    if isNullJ r then .error .nullAccess
    else
      match mkRecords bounce mail rs with
      | .ok recs => .ok (mkBounceRecord bounce mail r :: recs)
      | .error e => .error e

/-- File-system effects performed by `appendToCsv`, in order. -/
inductive FsOp where
  | lockCreate
  | fileAppend
  | lockRemove
deriving DecidableEq

/-- State of the store: whether the lock file exists, and the data rows of
the live CSV (the fixed header line is kept implicit). -/
structure FsState where
  lock : Bool
  rows : List (List String)
deriving DecidableEq

/-- part_005 `appendToCsv`: create the lock file, append the stringified
records, remove the lock file; on any error the catch block removes the
lock file (logging the failure when it does not exist) and rethrows.
`flock`/`fapp` are fault switches for the two fallible writes; the third
component records the effects that actually happened, in order. -/
def appendToCsv (flock fapp : Bool) (recs : List BounceRecord) (s : FsState) :
    Except Unit Unit × FsState × List FsOp :=
  if flock then
    if s.lock then (.error (), { s with lock := false }, [.lockRemove])
    else (.error (), s, [])
  else if fapp then
    (.error (), { s with lock := false }, [.lockCreate, .lockRemove])
  else
    (.ok (), { lock := false, rows := s.rows ++ recs.map toCells },
      [.lockCreate, .fileAppend, .lockRemove])

/-- HTTP responses of the part_005 `/sns` route. -/
inductive Resp where
  | ok : String → Resp
  | err500 : Resp
deriving DecidableEq

/-- The `try` block of the part_005 `/sns` handler: decode, guard the
bounce structure (`!bounce?.bouncedRecipients?.length || !mail` throws
`Invalid bounce data structure`), build one record per recipient, and
append them under the lock. -/
def snsCore (flock fapp : Bool) (body : Json) (s : FsState) :
    Except (HErr × FsState) (Resp × FsState) :=
  match processSNSMessage005 body with
  | .error e => .error (e, s)
  | .ok none => .ok (.ok "Non-bounce notification ignored", s)
  | .ok (some content) =>
    match jsMember content "bounce" with
    | some (Json.obj bfs) =>
      match bfs.lookup "bouncedRecipients" with
      | some (Json.arr rs) =>
        if rs.isEmpty then .error (.invalidBounceStructure, s)
        else if jsFalsyO (jsMember content "mail") then
          .error (.invalidBounceStructure, s)
        else
          match jsMember content "mail" with
          | some m =>
            match mkRecords (Json.obj bfs) m rs with
            | .error e => .error (e, s)
            | .ok recs =>
              match appendToCsv flock fapp recs s with
              | (Except.ok _, s', _) =>
                .ok (.ok "Bounce processed successfully", s')
              | (Except.error _, s', _) => .error (.storeFault, s')
          | none => .error (.invalidBounceStructure, s)
      | some (Json.str t) =>
        if t = "" then .error (.invalidBounceStructure, s)
        else if jsFalsyO (jsMember content "mail") then
          .error (.invalidBounceStructure, s)
        else .error (.typeFault, s)
      | _ => .error (.invalidBounceStructure, s)
    | _ => .error (.invalidBounceStructure, s)

/-- The part_005 `/sns` route: the catch block turns any thrown error into
a 500 response. -/
def handleSns005 (flock fapp : Bool) (body : Json) (s : FsState) :
    Resp × FsState :=
  match snsCore flock fapp body s with
  | .ok r => r
  | .error (_, s') => (.err500, s')

/-! ## part_005: retention cleanup over the parsed CSV -/

/-- Header titles configured for `csv-writer` (and written as the file's
first line). -/
def headerTitles : List String :=
  ["Bounced Email", "Timestamp", "Source Email", "Source IP", "Bounce Type",
   "Bounce Sub-Type", "Diagnostic Code", "Reporting MTA", "Feedback ID"]

/-- Field ids configured for `csv-writer` (the keys `stringifyRecords`
reads off each record object). -/
def headerIds : List String :=
  ["email", "timestamp", "sourceEmail", "sourceIp", "bounceType",
   "bounceSubType", "diagnosticCode", "reportingMTA", "feedbackId"]

/-- The live CSV file at cell granularity: the header line's cells and the
data lines' cells. -/
structure CsvFile where
  header : List String
  rows : List (List String)
deriving DecidableEq

/-- `csv.parse(content, columns true)`: each data line becomes a record
keyed by the file's first-line titles. -/
def csvParseCols (f : CsvFile) : List (List (String × String)) :=
  f.rows.map (fun r => f.header.zip r)

/-- Key lookup on a parsed record (`record[k]`, `undefined` as `none`). -/
def recField (r : List (String × String)) (k : String) : Option String :=
  r.lookup k

/-- The cleanup filter of part_005 `cleanupOldData`:
`new Date(record.Timestamp) > cutoffDate` (an invalid date compares
false). -/
def keepRecent (cutoff : Int) (r : List (String × String)) : Bool :=
  match (recField r "Timestamp").bind jsDateParse with
  | some t => decide (cutoff < t)
  | none => false

/-- The records part_005 `cleanupOldData` retains. -/
def recentRecords005 (cutoff : Int) (f : CsvFile) : List (List (String × String)) :=
  (csvParseCols f).filter (keepRecent cutoff)

/-- `csvStringifier.stringifyRecords` on one record: one cell per
configured field id, an absent key rendering as the empty cell. -/
def stringifyRecord (r : List (String × String)) : List String :=
  headerIds.map (fun k => (recField r k).getD "")

/-- part_005 `cleanupOldData` on the live CSV: parse with the file's
header, keep the records newer than the cutoff, and write back the
configured header line plus the re-stringified records. -/
def cleanupOldData (cutoff : Int) (f : CsvFile) : CsvFile :=
  CsvFile.mk headerTitles ((recentRecords005 cutoff f).map stringifyRecord)

/-! ## part_005 / part_000: the daily-report retry loop -/

/-- The `while (retries > 0)` body of `sendDailyReport`: `t n` is the
outcome of the `n`-th transport invocation (numbered from 0).  Returns the
overall outcome, the number of invocations made, and the list of waits (in
milliseconds) performed between attempts. -/
def sendLoop (t : Nat → Bool) : Nat → Nat → List Nat →
    Except Unit Unit × Nat × List Nat
  | 0, calls, delays => (.ok (), calls, delays)
  | Nat.succ r, calls, delays =>
    if t calls then (.ok (), calls + 1, delays)
    else if r = 0 then (.error (), calls + 1, delays)
    else sendLoop t r (calls + 1) (delays ++ [5000])

/-- `sendDailyReport`'s delivery phase: the loop entered with
`retries = 3`, no calls made yet. -/
def sendDailyReportRetry (t : Nat → Bool) : Except Unit Unit × Nat × List Nat :=
  sendLoop t 3 0 []

/-! ## part_003: the multi-strategy Message decoder and line-based cleanup -/

/-- Strategy "parse once": `JSON.parse(snsMessage.Message)`. -/
def strat1 (m : Option Json) : Option Json := jsonParseArg m

/-- `replace(per-anchor quote regex, empty)`: drop one leading and one
trailing double quote, each if present. -/
def stripOuterQuote (s : String) : String :=
  let cs := match s.data with
    | '"' :: rest => rest
    | other => other
  String.mk (if cs.getLast? = some '"' then cs.dropLast else cs)

/-- Strategy "unescape, strip quotes, parse": on a string Message, replace
every backslash-quote by a quote, drop surrounding quotes, parse; on a
non-string, `.replace` throws and the strategy fails. -/
def strat2 (m : Option Json) : Option Json :=
  match m with
  | some (.str s) => jsonParse (stripOuterQuote (String.mk (unescapeQuotes s.data)))
  | _ => none

/-- `JSON.parse` applied to an already-parsed value (coercing non-strings
to strings first). -/
def jsonParseVal (v : Json) : Option Json := jsonParseArg (some v)

/-- Strategy "parse twice": `JSON.parse(JSON.parse(snsMessage.Message))`. -/
def strat3 (m : Option Json) : Option Json := (jsonParseArg m).bind jsonParseVal

/-- The part_003 nested try/catch over the three parse strategies; failure
of all three produces the 400 response carrying the original raw
`Message`. -/
def decode003 (m : Option Json) : Except (Option Json) Json :=
  match strat1 m with
  | some v => .ok v
  | none =>
    match strat2 m with
    | some v => .ok v
    | none =>
      match strat3 m with
      | some v => .ok v
      | none => .error m

/-- Modelled from the spec section 4.1: strategy (a), "treat as
already-structured object". -/
def specStratObject (m : Option Json) : Option Json :=
  match m with
  | some (.obj fs) => some (.obj fs)
  | _ => none

/-- Modelled from the spec section 4.1: the ordered four-strategy decode
(a) structured object, (b) parse once, (c) unescape and strip quotes then
parse, (d) parse twice; first success wins. -/
def specDecode (m : Option Json) : Option Json :=
  match specStratObject m with
  | some v => some v
  | none =>
    match strat1 m with
    | some v => some v
    | none =>
      match strat2 m with
      | some v => some v
      | none => strat3 m

/-- The part_005 first stage as a strategy: accept the Message when
`typeof` calls it an object. -/
def stratTypeofObj (m : Option Json) : Option Json :=
  match m with
  | some v => if typeofObject v then some v else none
  | none => none

/-- Timestamp cell extraction of the part_003 cleanup:
`line.split(',')[1].replace(quote regex, empty)`; `none` models the
`TypeError` thrown when the line has no second field. -/
def tsCell003 (line : String) : Option String :=
  ((jsSplitComma line)[1]?).map (stripChar '"')

/-- The part_003 retention filter callback: keep the header line,
drop lines with an empty timestamp cell, keep lines whose timestamp
parses to an instant after the cutoff; `none` models a thrown
`TypeError`. -/
def keepLine003 (cutoff : Int) (i : Nat) (line : String) : Option Bool :=
  if i = 0 then some true
  else
    match tsCell003 line with
    | none => none
    | some ts =>
      if ts = "" then some false
      else
        match jsDateParse ts with
        | some t => some (decide (cutoff < t))
        | none => some false

/-- `Array.prototype.filter` with the element index, where the callback may
throw (`none` aborts the whole traversal). -/
def filterIdxE (p : Nat → String → Option Bool) : Nat → List String →
    Option (List String)
  | _, [] => some []
  | i, x :: xs =>
    match p i x with
    | none => none
    | some b =>
      match filterIdxE p (i + 1) xs with
      | none => none
      | some rest => some (if b then x :: rest else rest)

/-- The part_003 cron cleanup of the CSV lines; `none` models the filter
callback throwing (in which case nothing is written back). -/
def cleanup003 (cutoff : Int) (lines : List String) : Option (List String) :=
  filterIdxE (keepLine003 cutoff) 0 lines

/-! ## ses-bounces-handler.js (root variant): handler and cleanup -/

/-- The root variant's retention filter: keep a line when its second
comma-separated field parses as a date after the cutoff.  There is no
header exemption: the header's `Timestamp` cell is an invalid date. -/
def keepLineRoot (cutoff : Int) (line : String) : Bool :=
  match (jsSplitComma line)[1]? with
  | none => false
  | some ts =>
    match jsDateParse ts with
    | some t => decide (cutoff < t)
    | none => false

/-- The root variant's cron cleanup over the CSV lines. -/
def cleanupRoot (cutoff : Int) (lines : List String) : List String :=
  lines.filter (keepLineRoot cutoff)

/-- Responses of the root `/sns` route. -/
inductive RootResp where
  | ok : String → RootResp
  | err : RootResp
deriving DecidableEq

/-- The header line the root variant writes on startup. -/
def rootHeader : String := "Bounced Email,Timestamp,Source Email,Source IP"

/-- The root `/sns` handler: for a Bounce notification it records only
`bounce.bouncedRecipients[0]`, appending a single unquoted CSV line; any
failed property access is the thrown path (500).  Non-Bounce bodies are
acknowledged without writing. -/
def handleSnsRoot (body : Json) (lines : List String) : RootResp × List String :=
  match body with
  | Json.null => (.err, lines)
  | _ =>
    match jsMember body "notificationType" with
    | some (Json.str t) =>
      if t = "Bounce" then
        match jsMember body "bounce" with
        | some (Json.obj bfs) =>
          match bfs.lookup "bouncedRecipients" with
          | some (Json.arr (r0 :: _)) =>
            match r0 with
            | Json.null => (.err, lines)
            | _ =>
              match jsMember body "mail" with
              | some Json.null => (.err, lines)
              | some mv =>
                let line := jsToStringU (jsMember r0 "emailAddress") ++ "," ++
                  jsToStringU (bfs.lookup "timestamp") ++ "," ++
                  jsToStringU (jsMember mv "source") ++ "," ++
                  jsToStringU (jsMember mv "sourceIp")
                (.ok "Notification processed", lines ++ [line])
              | none => (.err, lines)
          | _ => (.err, lines)
        | _ => (.err, lines)
      else (.ok "Notification processed", lines)
    | _ => (.ok "Notification processed", lines)

/-! ## Ordered-strategy view of the decoders -/

/-- First success of an ordered list of decode strategies. -/
def firstSome (strats : List (Option Json → Option Json)) (m : Option Json) :
    Option Json :=
  match strats with
  | [] => none
  | f :: fs =>
    match f m with
    | some v => some v
    | none => firstSome fs m

/-! ## Concrete payloads used by witnesses and counterexamples -/

/-- Two bounced recipients, the second with a diagnostic code. -/
def exRecips : List Json :=
  [Json.obj [("emailAddress", Json.str "a@b.c")],
   Json.obj [("emailAddress", Json.str "d@e.f"),
             ("diagnosticCode", Json.str "550 user unknown")]]

/-- Fields of a bounce object without `reportingMTA`. -/
def exBounceFields : List (String × Json) :=
  [("bouncedRecipients", Json.arr exRecips),
   ("timestamp", Json.str "2030-01-01T00:00:00.000Z"),
   ("bounceType", Json.str "Permanent"),
   ("bounceSubType", Json.str "General"),
   ("feedbackId", Json.str "fid-1")]

/-- The bounce object itself. -/
def exBounce : Json := Json.obj exBounceFields

/-- A mail object carrying both source fields. -/
def exMailFull : Json :=
  Json.obj [("source", Json.str "s@x.y"), ("sourceIp", Json.str "1.2.3.4")]

/-- A mail object without `sourceIp`. -/
def exMailNoIp : Json := Json.obj [("source", Json.str "s@x.y")]

/-- Envelope fields that satisfy the part_005 signature precheck. -/
def exSigFields : List (String × Json) :=
  [("SigningCertURL", Json.str "https://sns.us-east-1.amazonaws.com/cert.pem"),
   ("Signature", Json.str "sig"),
   ("SignatureVersion", Json.str "1")]

/-- Decoded Bounce content with both source fields present. -/
def exContentFull : Json :=
  Json.obj [("notificationType", Json.str "Bounce"), ("bounce", exBounce),
            ("mail", exMailFull)]

/-- Decoded Bounce content whose mail object lacks `sourceIp`. -/
def exContentNoIp : Json :=
  Json.obj [("notificationType", Json.str "Bounce"), ("bounce", exBounce),
            ("mail", exMailNoIp)]

/-- A part_005 envelope carrying `exContentFull` as a structured Message. -/
def exBodyFull : Json := Json.obj (exSigFields ++ [("Message", exContentFull)])

/-- A part_005 envelope whose mail object lacks `sourceIp`. -/
def exBodyNoIp : Json := Json.obj (exSigFields ++ [("Message", exContentNoIp)])

/-- Bounce content whose recipient list is empty. -/
def exContentEmptyRec : Json :=
  Json.obj [("notificationType", Json.str "Bounce"),
            ("bounce", Json.obj [("bouncedRecipients", Json.arr []),
              ("timestamp", Json.str "2030-01-01T00:00:00.000Z")]),
            ("mail", exMailFull)]

/-- A part_005 envelope with an empty recipient list. -/
def exBodyEmptyRec : Json := Json.obj (exSigFields ++ [("Message", exContentEmptyRec)])

/-- A complaint notification (non-Bounce). -/
def exContentComplaint : Json :=
  Json.obj [("notificationType", Json.str "Complaint")]

/-- A part_005 envelope carrying a Complaint. -/
def exBodyComplaint : Json :=
  Json.obj (exSigFields ++ [("Message", exContentComplaint)])

/-- A root-variant body (the root handler reads the event directly). -/
def exBodyRoot : Json :=
  Json.obj [("notificationType", Json.str "Bounce"), ("bounce", exBounce),
            ("mail", exMailFull)]

/-- A data line of the root/part_003 CSV. -/
def exRowRoot : String := "a@b.c,2030-01-01T00:00:00.000Z,s@x.y,1.2.3.4"

/-- Cells of one stored nine-column record. -/
def exCells : List String :=
  ["a@b.c", "2030-01-01T00:00:00.000Z", "s@x.y", "1.2.3.4", "Permanent",
   "General", "550", "mta.x", "fid-1"]

/-- A part_005 CSV file holding one fresh record. -/
def exFile005 : CsvFile := CsvFile.mk headerTitles [exCells]

/-! ## C1 -/

/-- A Message that is already a structured object. -/
def msgObjC1 : Json := Json.obj [("notificationType", Json.str "Bounce")]

/-- C1 counterexample: for an inner `Message` that is already a structured
object, the spec's ordered cascade succeeds via strategy (a), but the
part_003 decoder (which implements only parse-once, unescape-then-parse
and parse-twice) fails all strategies and rejects the envelope, returning
the 400 payload with the raw Message. -/
theorem c1_counterexample :
    specDecode (some msgObjC1) = some msgObjC1 ∧
    decode003 (some msgObjC1) = Except.error (some msgObjC1) := by
  constructor <;> rfl

/-- C1 (amended): the part_003 decoder is the first-success cascade of the
three strategies parse-once, unescape-strip-quotes-parse, parse-twice (in
that order), failing with the original raw Message if all three fail; it
has no treat-as-structured-object strategy.  The part_005 decoder is the
first-success cascade of treat-as-`typeof`-object followed by parse-once,
failing with `Invalid Message format` otherwise; it has no unescape or
parse-twice strategy. -/
theorem c1_decoder_order (m : Option Json) :
    decode003 m =
      (match firstSome [strat1, strat2, strat3] m with
       | some v => Except.ok v
       | none => Except.error m) ∧
    extractMsg005 m =
      (match firstSome [stratTypeofObj, strat1] m with
       | some v => Except.ok v
       | none => Except.error HErr.invalidMsgFormat) := by
  constructor
  · simp only [decode003, firstSome]
    cases h1 : strat1 m <;> cases h2 : strat2 m <;> cases h3 : strat3 m <;> rfl
  · simp only [extractMsg005, firstSome, stratTypeofObj, strat1]
    cases m with
    | none => cases h : jsonParseArg none <;> simp [h]
    | some v =>
      cases hto : typeofObject v
      · simp only [hto, Bool.false_eq_true, reduceIte]
        cases h : jsonParseArg (some v) <;> simp [h]
      · simp [hto]

/-! ## C2 -/

/-- Mapping the record constructor over recipients none of which is
`null` never throws. -/
theorem mkRecords_eq_map (bounce mail : Json) :
    ∀ rs : List Json, (∀ r ∈ rs, isNullJ r = false) →
      mkRecords bounce mail rs =
        Except.ok (rs.map (mkBounceRecord bounce mail)) := by
  intro rs
  induction rs with
  | nil => intro _; rfl
  | cons r rs ih =>
    intro h
    have hr : isNullJ r = false := h r (List.mem_cons_self r rs)
    have ihr := ih (fun x hx => h x (List.mem_cons_of_mem r hx))
    simp [mkRecords, hr, ihr]

/-- C2 counterexample: the root `ses-bounces-handler.js` handler looks
only at `bounce.bouncedRecipients[0]`: an event with two recipients
appends exactly one data line, not two. -/
theorem c2_counterexample :
    exRecips.length = 2 ∧
    (handleSnsRoot exBodyRoot [rootHeader]).2 = [rootHeader, exRowRoot] := by
  constructor <;> rfl

/-- C2 (amended): in the part_005 (and part_000/part_003) variants, a
valid Bounce envelope with N recipients appends exactly N records, one per
recipient in recipient order; all N share `timestamp`, `sourceEmail`,
`sourceIp` (and the event-level metadata fields), and the per-recipient
fields are `email` and `diagnosticCode`.  The root variant records only
the first recipient (see the counterexample). -/
theorem c2_records_per_recipient (body : Json) (s : FsState)
    (content : Json) (bfs : List (String × Json)) (rs : List Json) (m : Json)
    (hdec : processSNSMessage005 body = Except.ok (some content))
    (hb : jsMember content "bounce" = some (Json.obj bfs))
    (hr : bfs.lookup "bouncedRecipients" = some (Json.arr rs))
    (hne : rs ≠ [])
    (hm : jsMember content "mail" = some m)
    (hmt : jsFalsy m = false)
    (hnn : ∀ r ∈ rs, isNullJ r = false) :
    handleSns005 false false body s =
      (Resp.ok "Bounce processed successfully",
       FsState.mk false
         (s.rows ++ (rs.map (mkBounceRecord (Json.obj bfs) m)).map toCells)) ∧
    (rs.map (mkBounceRecord (Json.obj bfs) m)).length = rs.length ∧
    (∀ r ∈ rs.map (mkBounceRecord (Json.obj bfs) m),
      r.timestamp = csvCellU (jsMember (Json.obj bfs) "timestamp") ∧
      r.sourceEmail = csvCellU (jsMember m "source") ∧
      r.sourceIp = csvCellU (jsMember m "sourceIp") ∧
      r.bounceType = csvCell (jsOrStr (jsMember (Json.obj bfs) "bounceType") "Unknown") ∧
      r.bounceSubType = csvCell (jsOrStr (jsMember (Json.obj bfs) "bounceSubType") "Unknown") ∧
      r.reportingMTA = csvCell (jsOrStr (jsMember (Json.obj bfs) "reportingMTA") "Not provided") ∧
      r.feedbackId = csvCell (jsOrStr (jsMember (Json.obj bfs) "feedbackId") "Not provided")) ∧
    (∀ i : Nat,
      ((rs.map (mkBounceRecord (Json.obj bfs) m))[i]?).map BounceRecord.email =
        (rs[i]?).map (fun x => csvCellU (jsMember x "emailAddress")) ∧
      ((rs.map (mkBounceRecord (Json.obj bfs) m))[i]?).map BounceRecord.diagnosticCode =
        (rs[i]?).map (fun x => csvCell (jsOrStr (jsMember x "diagnosticCode") "Not provided"))) := by
  have hrecs := mkRecords_eq_map (Json.obj bfs) m rs hnn
  refine ⟨?_, by simp, ?_, ?_⟩
  · cases rs with
    | nil => exact absurd rfl hne
    | cons a as =>
      simp only [handleSns005, snsCore, hdec, hb, hr, hm, hrecs, hmt,
        List.isEmpty_cons, jsFalsyO, Bool.false_eq_true, reduceIte,
        appendToCsv]
      try rfl
  · intro r hrm
    obtain ⟨x, _, rfl⟩ := List.mem_map.mp hrm
    exact ⟨rfl, rfl, rfl, rfl, rfl, rfl, rfl⟩
  · intro i
    constructor <;> rw [List.getElem?_map] <;> cases rs[i]? <;> rfl

/-- C2 witness: the two-recipient envelope is appended as exactly two
records sharing the event fields. -/
theorem c2_witness :
    handleSns005 false false exBodyFull (FsState.mk false []) =
      (Resp.ok "Bounce processed successfully",
       FsState.mk false
         ((exRecips.map (mkBounceRecord exBounce exMailFull)).map toCells)) :=
  (c2_records_per_recipient exBodyFull (FsState.mk false []) exContentFull
    exBounceFields exRecips exMailFull rfl rfl rfl
    (List.cons_ne_nil _ _) rfl rfl (by decide)).1

/-! ## C3 -/

/-- C3 (code_bug evidence): the claim says `deleteOlderThan` preserves the
header/schema row on every call, but the root variant's cleanup filter has
no header exemption: the header's `Timestamp` cell is not a parseable
date, so the header line is deleted while a fresh data row survives. -/
theorem c3_root_cleanup_drops_header :
    cleanupRoot 0 [rootHeader, exRowRoot] = [exRowRoot] := by decide

/-! ## C4 -/

/-- C4 (code_bug evidence): part_005 `cleanupOldData` is not idempotent.
`csv.parse` keys records by the file's header titles while
`stringifyRecords` reads the `csv-writer` field ids off each record, so the
first call rewrites every kept record as a row of empty cells; the second
call then deletes those rows (an empty `Timestamp` is an invalid date),
changing the dataset again. -/
theorem c4_cleanup_not_idempotent :
    cleanupOldData 0 (cleanupOldData 0 exFile005) ≠ cleanupOldData 0 exFile005 := by
  decide

/-! ## C5 -/

/-- C5: the daily-report delivery makes at most 3 transport attempts; a
success at attempt `k + 1` stops the loop having invoked the transport
exactly `k + 1` times with a 5000 ms wait after each of the `k` failed
attempts, and three consecutive failures produce the error outcome (a
returned value, not a crash) after exactly 3 invocations with the two
inter-attempt waits. -/
theorem c5_retry_bounded (t : Nat → Bool) :
    (∀ k, k < 3 → (∀ i, i < k → t i = false) → t k = true →
      sendDailyReportRetry t = (Except.ok (), k + 1, List.replicate k 5000)) ∧
    ((∀ i, i < 3 → t i = false) →
      sendDailyReportRetry t = (Except.error (), 3, [5000, 5000])) := by
  have e3 : sendDailyReportRetry t =
      if t 0 then (Except.ok (), 1, ([] : List Nat)) else sendLoop t 2 1 [5000] := rfl
  have e2 : sendLoop t 2 1 [5000] =
      if t 1 then (Except.ok (), 2, [5000]) else sendLoop t 1 2 [5000, 5000] := rfl
  have e1 : sendLoop t 1 2 [5000, 5000] =
      if t 2 then (Except.ok (), 3, [5000, 5000])
      else (Except.error (), 3, [5000, 5000]) := rfl
  constructor
  · intro k hk hfail hsucc
    interval_cases k
    · rw [e3, if_pos hsucc]
      rfl
    · rw [e3, if_neg (by simp [hfail 0 (by norm_num)]), e2, if_pos hsucc]
      rfl
    · rw [e3, if_neg (by simp [hfail 0 (by norm_num)]), e2,
        if_neg (by simp [hfail 1 (by norm_num)]), e1, if_pos hsucc]
      rfl
  · intro hfail
    rw [e3, if_neg (by simp [hfail 0 (by norm_num)]), e2,
      if_neg (by simp [hfail 1 (by norm_num)]), e1,
      if_neg (by simp [hfail 2 (by norm_num)])]

/-- C5 witness: a transport failing on attempts 1 and 2 and succeeding on
attempt 3 yields success with exactly 3 invocations and the two 5-second
waits. -/
theorem c5_retry_witness :
    sendDailyReportRetry (fun i => i == 2) =
      (Except.ok (), 3, [5000, 5000]) :=
  (c5_retry_bounded (fun i => i == 2)).1 2 (by norm_num) (by decide) (by decide)

/-! ## C9 -/

/-- C9: every `appendToCsv` call leaves the lock released on every exit
path (success, failed append, failed lock write); the file is written only
between the lock acquisition and the lock release, and when no write
happened the rows are unchanged. -/
theorem c9_lock_released (flock fapp : Bool) (recs : List BounceRecord)
    (s : FsState) :
    (appendToCsv flock fapp recs s).2.1.lock = false ∧
    (FsOp.fileAppend ∈ (appendToCsv flock fapp recs s).2.2 →
      (appendToCsv flock fapp recs s).2.2 =
        [FsOp.lockCreate, FsOp.fileAppend, FsOp.lockRemove] ∧
      (appendToCsv flock fapp recs s).1 = Except.ok () ∧
      (appendToCsv flock fapp recs s).2.1.rows = s.rows ++ recs.map toCells) ∧
    (FsOp.fileAppend ∉ (appendToCsv flock fapp recs s).2.2 →
      (appendToCsv flock fapp recs s).2.1.rows = s.rows) := by
  obtain ⟨lk, rows⟩ := s
  cases flock <;> cases fapp <;> cases lk <;>
    simp [appendToCsv]

/-- C9 witness: on a fault-free append the lock ends released and the
trace is acquire, write, release. -/
theorem c9_lock_witness :
    (appendToCsv false false [] (FsState.mk true [])).2.1.lock = false ∧
    (appendToCsv false false [] (FsState.mk true [])).2.2 =
      [FsOp.lockCreate, FsOp.fileAppend, FsOp.lockRemove] :=
  ⟨(c9_lock_released false false [] (FsState.mk true [])).1,
   ((c9_lock_released false false [] (FsState.mk true [])).2.1 (by decide)).1⟩

/-! ## C6 -/

/-- C6: a decoded envelope whose inner kind is Bounce but whose recipients
list is empty, or whose mail object is absent, makes the part_005 handler
throw `Invalid bounce data structure` (surfaced as the 500 catch-all), and
nothing is appended to the store: the post-state equals the pre-state. -/
theorem c6_invalid_bounce_rejected (body : Json) (s : FsState)
    (flock fapp : Bool) (content : Json)
    (hdec : processSNSMessage005 body = Except.ok (some content))
    (hbad : (∃ bfs, jsMember content "bounce" = some (Json.obj bfs) ∧
        bfs.lookup "bouncedRecipients" = some (Json.arr [])) ∨
      jsMember content "mail" = none) :
    snsCore flock fapp body s = Except.error (HErr.invalidBounceStructure, s) ∧
    handleSns005 flock fapp body s = (Resp.err500, s) := by
  have hcore : snsCore flock fapp body s =
      Except.error (HErr.invalidBounceStructure, s) := by
    rcases hbad with ⟨bfs, hb, hr⟩ | hmail
    · simp [snsCore, hdec, hb, hr]
    · simp only [snsCore, hdec]
      cases hjb : jsMember content "bounce" with
      | none => rfl
      | some b =>
        cases b with
        | obj bfs =>
          cases hlk : bfs.lookup "bouncedRecipients" with
          | none => simp [hlk]
          | some v =>
            cases v with
            | arr rs =>
              cases rs with
              | nil => simp [hlk]
              | cons a as => simp [hlk, hmail, jsFalsyO]
            | str t =>
              by_cases ht : t = "" <;> simp [hlk, ht, hmail, jsFalsyO]
            | null => simp [hlk]
            | bool x => simp [hlk]
            | num n => simp [hlk]
            | obj fs => simp [hlk]
        | null => simp
        | bool x => simp
        | num n => simp
        | str t => simp
        | arr xs => simp
  exact ⟨hcore, by simp [handleSns005, hcore]⟩

/-- C6 witness: an envelope whose Bounce content has an empty
`bouncedRecipients` array is rejected with no append. -/
theorem c6_witness :
    snsCore false false exBodyEmptyRec (FsState.mk false []) =
      Except.error (HErr.invalidBounceStructure, FsState.mk false []) ∧
    handleSns005 false false exBodyEmptyRec (FsState.mk false []) =
      (Resp.err500, FsState.mk false []) :=
  c6_invalid_bounce_rejected exBodyEmptyRec (FsState.mk false []) false false
    exContentEmptyRec rfl (Or.inl ⟨_, rfl, rfl⟩)

/-! ## C7 -/

/-- C7: a successfully decoded envelope whose inner notification kind is
not strictly the string `Bounce` is acknowledged as ignored (a 200, never
an error) and nothing is appended: the post-state equals the pre-state. -/
theorem c7_non_bounce_ignored (body : Json) (s : FsState) (flock fapp : Bool)
    (content : Json) (nt : Option Json)
    (hsig : verifySignature005 body = true)
    (hex : extractMsg005 (jsMember body "Message") = Except.ok content)
    (hnt : notifTypeOf content = Except.ok nt)
    (hnb : isBounceTag nt = false) :
    handleSns005 flock fapp body s =
      (Resp.ok "Non-bounce notification ignored", s) := by
  simp [handleSns005, snsCore, processSNSMessage005, hsig, hex, hnt, hnb]

/-- C7 witness: a Complaint notification is ignored without error and
without touching the store. -/
theorem c7_witness :
    handleSns005 false false exBodyComplaint (FsState.mk false []) =
      (Resp.ok "Non-bounce notification ignored", FsState.mk false []) :=
  c7_non_bounce_ignored exBodyComplaint (FsState.mk false []) false false
    exContentComplaint (some (Json.str "Complaint")) rfl rfl rfl rfl

/-! ## C8 -/

/-- C8 counterexample: an accepted bounce event whose mail object has no
`sourceIp` is stored with an empty `Source IP` cell — the claim that no
field of a stored record is ever null or empty fails (only the five
metadata fields have placeholders). -/
theorem c8_counterexample :
    (handleSns005 false false exBodyNoIp (FsState.mk false [])).2.rows =
      [["a@b.c", "2030-01-01T00:00:00.000Z", "s@x.y", "", "Permanent",
        "General", "Not provided", "Not provided", "fid-1"],
       ["d@e.f", "2030-01-01T00:00:00.000Z", "s@x.y", "", "Permanent",
        "General", "550 user unknown", "Not provided", "fid-1"]] ∧
    (mkBounceRecord exBounce exMailNoIp
      (Json.obj [("emailAddress", Json.str "a@b.c")])).sourceIp = "" := by
  constructor <;> rfl

/-- C8 (amended): in every stored record, each of the five optional
metadata fields that is unset (absent or falsy) in the event is stored as
its literal placeholder (`Unknown` for bounce type and sub-type,
`Not provided` for diagnostic code, reporting MTA and feedback id); the
four core fields take no placeholder, and an absent `sourceIp`/`source`
is stored as the empty cell (no cell is ever null — cells are strings). -/
theorem c8_optional_field_defaults (bounce mail recipient : Json) :
    (jsFalsyO (jsMember bounce "bounceType") = true →
      (mkBounceRecord bounce mail recipient).bounceType = "Unknown") ∧
    (jsFalsyO (jsMember bounce "bounceSubType") = true →
      (mkBounceRecord bounce mail recipient).bounceSubType = "Unknown") ∧
    (jsFalsyO (jsMember recipient "diagnosticCode") = true →
      (mkBounceRecord bounce mail recipient).diagnosticCode = "Not provided") ∧
    (jsFalsyO (jsMember bounce "reportingMTA") = true →
      (mkBounceRecord bounce mail recipient).reportingMTA = "Not provided") ∧
    (jsFalsyO (jsMember bounce "feedbackId") = true →
      (mkBounceRecord bounce mail recipient).feedbackId = "Not provided") ∧
    (jsMember mail "sourceIp" = none →
      (mkBounceRecord bounce mail recipient).sourceIp = "") ∧
    (jsMember mail "source" = none →
      (mkBounceRecord bounce mail recipient).sourceEmail = "") := by
  refine ⟨?_, ?_, ?_, ?_, ?_, ?_, ?_⟩ <;> intro h <;>
    simp only [mkBounceRecord]
  · cases hv : jsMember bounce "bounceType" with
    | none => rfl
    | some x =>
      rw [hv] at h; simp only [jsFalsyO] at h
      simp [jsOrStr, h, csvCell, jsToString]
  · cases hv : jsMember bounce "bounceSubType" with
    | none => rfl
    | some x =>
      rw [hv] at h; simp only [jsFalsyO] at h
      simp [jsOrStr, h, csvCell, jsToString]
  · cases hv : jsMember recipient "diagnosticCode" with
    | none => rfl
    | some x =>
      rw [hv] at h; simp only [jsFalsyO] at h
      simp [jsOrStr, h, csvCell, jsToString]
  · cases hv : jsMember bounce "reportingMTA" with
    | none => rfl
    | some x =>
      rw [hv] at h; simp only [jsFalsyO] at h
      simp [jsOrStr, h, csvCell, jsToString]
  · cases hv : jsMember bounce "feedbackId" with
    | none => rfl
    | some x =>
      rw [hv] at h; simp only [jsFalsyO] at h
      simp [jsOrStr, h, csvCell, jsToString]
  · rw [h]; rfl
  · rw [h]; rfl

/-- C8 witness: with `bounceType`, `diagnosticCode`, `reportingMTA` and
`feedbackId` absent the stored record carries the placeholders, and with
`sourceIp` absent it carries the empty cell. -/
theorem c8_defaults_witness :
    (mkBounceRecord (Json.obj []) exMailNoIp (Json.obj [])).bounceType = "Unknown" ∧
    (mkBounceRecord (Json.obj []) exMailNoIp (Json.obj [])).diagnosticCode = "Not provided" ∧
    (mkBounceRecord (Json.obj []) exMailNoIp (Json.obj [])).reportingMTA = "Not provided" ∧
    (mkBounceRecord (Json.obj []) exMailNoIp (Json.obj [])).sourceIp = "" :=
  ⟨(c8_optional_field_defaults (Json.obj []) exMailNoIp (Json.obj [])).1 rfl,
   (c8_optional_field_defaults (Json.obj []) exMailNoIp (Json.obj [])).2.2.1 rfl,
   (c8_optional_field_defaults (Json.obj []) exMailNoIp (Json.obj [])).2.2.2.1 rfl,
   (c8_optional_field_defaults (Json.obj []) exMailNoIp (Json.obj [])).2.2.2.2.2.1 rfl⟩

/-! ## C10 -/

/-- A part_003 retention-filter callback that returned `some true` at a
non-header index did so because its timestamp cell exists, is non-empty
and parses strictly after the cutoff. -/
theorem keepLine003_true (cutoff : Int) (i : Nat) (x : String)
    (hi : i ≠ 0) (hp : keepLine003 cutoff i x = some true) :
    ∃ ts t, tsCell003 x = some ts ∧ ts ≠ "" ∧ jsDateParse ts = some t ∧
      cutoff < t := by
  unfold keepLine003 at hp
  rw [if_neg hi] at hp
  cases hts : tsCell003 x with
  | none => rw [hts] at hp; exact Option.noConfusion hp
  | some ts =>
    rw [hts] at hp
    have hp' : (if ts = "" then some false
        else match jsDateParse ts with
          | some t => some (decide (cutoff < t))
          | none => some false) = some true := hp
    by_cases hemp : ts = ""
    · rw [if_pos hemp] at hp'; simp at hp'
    · rw [if_neg hemp] at hp'
      cases hd : jsDateParse ts with
      | none => rw [hd] at hp'; simp at hp'
      | some t =>
        rw [hd] at hp'
        exact ⟨ts, t, rfl, hemp, hd, of_decide_eq_true (Option.some.inj hp')⟩

/-- Every line retained by the part_003 filter from a non-header start
index has a non-empty timestamp cell parsing strictly after the cutoff. -/
theorem filterIdxE_keep (cutoff : Int) :
    ∀ (lines : List String) (i : Nat) (out : List String), i ≠ 0 →
      filterIdxE (keepLine003 cutoff) i lines = some out →
      ∀ line ∈ out, ∃ ts t, tsCell003 line = some ts ∧ ts ≠ "" ∧
        jsDateParse ts = some t ∧ cutoff < t := by
  intro lines
  induction lines with
  | nil =>
    intro i out _ hout line hline
    simp only [filterIdxE] at hout
    cases hout
    simp at hline
  | cons x xs ih =>
    intro i out hi hout line hline
    simp only [filterIdxE] at hout
    cases hp : keepLine003 cutoff i x with
    | none => rw [hp] at hout; exact Option.noConfusion hout
    | some b =>
      rw [hp] at hout
      cases hrest : filterIdxE (keepLine003 cutoff) (i + 1) xs with
      | none => rw [hrest] at hout; exact Option.noConfusion hout
      | some rest =>
        rw [hrest] at hout
        have hout' : (if b then x :: rest else rest) = out :=
          Option.some.inj hout
        have hrestgood := ih (i + 1) rest (Nat.succ_ne_zero i) hrest
        cases b with
        | false =>
          subst hout'
          exact hrestgood line hline
        | true =>
          subst hout'
          rcases List.mem_cons.mp hline with rfl | hmem
          · exact keepLine003_true cutoff i line hi hp
          · exact hrestgood line hmem

/-- C10 (amended): the pruning filters never retain a record whose
timestamp fails to parse: every record surviving the part_005
`cleanupOldData` filter has a parseable timestamp strictly newer than the
cutoff, and every non-header line a completed part_003 cleanup run keeps
has a non-empty timestamp cell parsing strictly newer than the cutoff.
(The rows part_005 *writes back* are blanked by the id/title mismatch —
see the counterexample — and a part_003 run aborts on a line with no
second field, so the guarantee is about the filter, not the rewritten
file.) -/
theorem c10_pruned_rows_parse (cutoff : Int) :
    (∀ f : CsvFile, ∀ r ∈ recentRecords005 cutoff f,
      ∃ t, (recField r "Timestamp").bind jsDateParse = some t ∧ cutoff < t) ∧
    (∀ hdr : String, ∀ lines out : List String,
      cleanup003 cutoff (hdr :: lines) = some out →
      ∃ out', out = hdr :: out' ∧
        ∀ line ∈ out', ∃ ts t, tsCell003 line = some ts ∧ ts ≠ "" ∧
          jsDateParse ts = some t ∧ cutoff < t) := by
  constructor
  · intro f r hr
    have hk := (List.mem_filter.mp hr).2
    unfold keepRecent at hk
    cases h : (recField r "Timestamp").bind jsDateParse with
    | none => rw [h] at hk; exact Bool.noConfusion hk
    | some t => rw [h] at hk; exact ⟨t, rfl, of_decide_eq_true hk⟩
  · intro hdr lines out hout
    unfold cleanup003 at hout
    simp only [filterIdxE] at hout
    have hp0 : keepLine003 cutoff 0 hdr = some true := by
      unfold keepLine003; rw [if_pos rfl]
    rw [hp0] at hout
    cases hrest : filterIdxE (keepLine003 cutoff) (0 + 1) lines with
    | none => rw [hrest] at hout; exact Option.noConfusion hout
    | some rest =>
      rw [hrest] at hout
      have hout' : hdr :: rest = out := Option.some.inj hout
      refine ⟨rest, hout'.symm, ?_⟩
      intro line hline
      exact filterIdxE_keep cutoff lines (0 + 1) rest (Nat.succ_ne_zero 0)
        hrest line hline

/-- The single-record file's parsed record. -/
def exParsedRec : List (String × String) := headerTitles.zip exCells

/-- C10 witness: the fresh record of `exFile005` survives the part_005
filter and its timestamp parses strictly after cutoff 0. -/
theorem c10_witness :
    ∃ t, (recField exParsedRec "Timestamp").bind jsDateParse = some t ∧
      (0 : Int) < t :=
  (c10_pruned_rows_parse 0).1 exFile005 exParsedRec (by decide)

/-- The all-empty row part_005's cleanup writes back for a kept record. -/
def blankCells : List String := ["", "", "", "", "", "", "", "", ""]

/-- C10 counterexample: after a completed part_005 cleanup run the
remaining data row is blanked (the id/title mismatch), so its timestamp
cell does not parse — contradicting the claim that after every cleanup run
each remaining data row has a parseable timestamp strictly newer than the
retention cutoff. -/
theorem c10_counterexample :
    (cleanupOldData 0 exFile005).rows = [blankCells] ∧
    (recField (headerTitles.zip blankCells) "Timestamp").bind jsDateParse =
      none := by
  constructor <;> rfl

end SES
